import Mathlib

/-!
Verification of the ringtostdout registration and streaming client.

The development shallowly embeds the two source files of the program:

* `src/main.rs` — the forwarding loop `output_data` that polls a ring-buffer
  consumer in 1 MiB chunks with a 1 ms timeout and writes the returned bytes
  to stdout, plus the argument structure and the main pipeline.
* `src/ringmaster_client/client.rs` — the registration client: the global
  port-manager port, `get_ringmaster_port`, `ring_name`, the CONNECT request
  builders, `ringmaster_request`, and `attach_consumer` / `attach_producer`.

External collaborators (the ring-buffer crate, the port-manager client crate,
TCP sockets, stdout) are modelled as explicit outcome/environment values; the
control flow of the repository's own functions is translated faithfully.
Rust panics (`unwrap`, `expect`) are modelled as `none` in an `Option` result.
Opaque errors of the external crates are abstracted as numeric codes.
-/

namespace RingToStdout

/-! ## Path semantics for `ring_name`

`client.rs` line 204: `path::Path::new(filename).file_name().unwrap().to_str().unwrap()`.
We model Rust `std::path::Path::file_name` on Unix: split the path on the
separator `/`, drop empty and `.` components, and take the last component
unless it is `..` (in which case there is no file name). -/

/-- Split a character list on the separator, keeping empty components. -/
def splitSlash : List Char → List (List Char)
  | [] => [[]]
  | c :: rest =>
    match splitSlash rest with
    | [] => [[]]
    | comp :: comps =>
      if c = '/' then [] :: comp :: comps else (c :: comp) :: comps

/-- A path component is significant when it is neither empty nor the `.` component. -/
def isRealComponent (c : List Char) : Bool :=
  decide (c ≠ [] ∧ c ≠ ['.'])

/-- Model of Rust `Path::file_name` on the character content of a path:
the last significant component, unless it is `..` (then no file name). -/
def fileName (p : List Char) : Option (List Char) :=
  match ((splitSlash p).filter isRealComponent).getLast? with
  | none => none
  | some comp => if comp = ['.', '.'] then none else some comp

/-- Embedding of `ring_name` in `client.rs`: the file-name part of the path.
The source unwraps the `Option`; `none` here models that panic. The second
unwrap (`to_str`) cannot fail in this model since paths are unicode strings. -/
def ring_name (filename : String) : Option String :=
  (fileName filename.toList).map fun l => String.mk l

theorem splitSlash_ne_nil (l : List Char) : splitSlash l ≠ [] := by
  cases l with
  | nil => simp [splitSlash]
  | cons c rest =>
    simp only [splitSlash]
    cases splitSlash rest with
    | nil => simp
    | cons comp comps =>
      by_cases h : c = '/' <;> simp [h]

theorem splitSlash_no_slash (l : List Char) (h : '/' ∉ l) : splitSlash l = [l] := by
  induction l with
  | nil => rfl
  | cons c rest ih =>
    simp only [List.mem_cons, not_or] at h
    simp only [splitSlash, ih h.2]
    have : c ≠ '/' := fun hc => h.1 hc.symm
    simp [this]

theorem splitSlash_append (xs ys : List Char) :
    splitSlash (xs ++ '/' :: ys) = splitSlash xs ++ splitSlash ys := by
  induction xs with
  | nil =>
    obtain ⟨d, ds, hd⟩ := List.exists_cons_of_ne_nil (splitSlash_ne_nil ys)
    simp [splitSlash, hd]
  | cons c rest ih =>
    obtain ⟨d, ds, hd⟩ := List.exists_cons_of_ne_nil (splitSlash_ne_nil rest)
    rw [List.cons_append]
    simp only [splitSlash, ih, hd, List.cons_append]
    by_cases h : c = '/' <;> simp [h]

/-! ## The forwarding loop (`output_data` in `main.rs`)

The loop repeatedly calls `ring.timed_get(&mut data, 1ms)` on a reusable
1 MiB buffer.  On `Ok(n)` it writes `data[0..n]` to stdout; on
`Err(Timeout)` it loops; on any other error it breaks.  We embed a run of
the loop over a finite trace of poll outcomes: the bytes written to stdout
and whether the `break` statement was reached inside the trace. -/

/-- Abstraction of the ring-buffer crate's `consumer::Error`: the `Timeout`
variant is matched explicitly by the loop; every other variant is collapsed
into `Fatal` with an opaque code (the loop treats them all alike). -/
inductive ConsumerError
  | Timeout
  | Fatal (code : Nat)
deriving DecidableEq

/-- Size of the reusable poll buffer in `output_data`: `1024 * 1024` bytes. -/
def BUFFER_SIZE : Nat := 1024 * 1024

/-- One call of `timed_get`: either it filled the buffer (full contents `buf`)
and returned a byte count `n`, or it returned an error. -/
inductive PollOutcome
  | ok (buf : List Nat) (n : Nat)
  | err (e : ConsumerError)
deriving DecidableEq

/-- Bytes written to stdout by `output_data` while consuming a trace of poll
outcomes: `Ok n` writes `data[0..n]`, `Timeout` writes nothing and continues,
any other error breaks the loop. An exhausted trace models external stop. -/
def output_data : List PollOutcome → List Nat
  | [] => []
  | PollOutcome.ok buf n :: rest => buf.take n ++ output_data rest
  | PollOutcome.err ConsumerError.Timeout :: rest => output_data rest
  | PollOutcome.err (ConsumerError.Fatal _) :: _ => []

/-- Whether the `break` in `output_data` is reached within the trace. -/
def loop_breaks : List PollOutcome → Bool
  | [] => false
  | PollOutcome.ok _ _ :: rest => loop_breaks rest
  | PollOutcome.err ConsumerError.Timeout :: rest => loop_breaks rest
  | PollOutcome.err (ConsumerError.Fatal _) :: _ => true

/-! ## The registration client (`ringmaster_client/client.rs`)

External crates are abstracted: `portman_client::Error` and the producer
attach error become opaque numeric codes; TCP and the port-manager answer
become explicit outcome values supplied by the environment. -/

deriving instance DecidableEq for Except

/-- Abstraction of the ring-buffer crate's `producer::Error` (opaque code). -/
inductive ProducerError
  | mk (code : Nat)
deriving DecidableEq

/-- The `Error` enum of `client.rs` lines 30-38, variant for variant.
`PortManError` carries the opaque code of the wrapped `portman_client::Error`. -/
inductive Error
  | ConsumerError (e : ConsumerError)
  | ProducerError (e : ProducerError)
  | MapError (s : String)
  | PortManError (code : Nat)
  | NoRingMaster
  | RingMasterFail (s : String)
  | Unimplemented
deriving DecidableEq

/-- The module-global mutable `portman_port` of `client.rs` line 81. -/
structure ClientState where
  portman_port : Nat
deriving DecidableEq

/-- Initial value of the global: `static mut portman_port: u16 = 30000`. -/
def initialState : ClientState := ClientState.mk 30000

/-- Embedding of `set_portman_port`: overwrite the global port. -/
def set_portman_port (new_port : Nat) : ClientState :=
  ClientState.mk new_port

/-- Result of one `portman_client::Client::find_by_service` call: either the
crate failed (opaque code) or it returned the list of advertised ports. -/
inductive PortmanOutcome
  | err (code : Nat)
  | ok (ports : List Nat)
deriving DecidableEq

/-- Embedding of `get_ringmaster_port`: query the port manager on the global
port; a crate error is wrapped in `PortManError`, an empty service list is
`NoRingMaster`, otherwise the first advertised port is returned (`v[0]`,
guarded by the emptiness check). -/
def get_ringmaster_port (s : ClientState) (o : PortmanOutcome) : Except Error Nat :=
  match o with
  | PortmanOutcome.err e => Except.error (Error.PortManError e)
  | PortmanOutcome.ok v =>
    if v.length = 0 then Except.error Error.NoRingMaster
    else Except.ok (v.headD 0)

/-- The request string built by `connect_consumer` (line 219):
`format!("CONNECT \x7b\x7d consumer.\x7b\x7d \x7b\x7d\n", ring, slot, process::id())`. -/
def connect_consumer_request (ring : String) (slot : Nat) (pid : Nat) : String :=
  "CONNECT " ++ ring ++ " consumer." ++ Nat.repr slot ++ " " ++ Nat.repr pid ++ "\n"

/-- The request string built by `connect_producer` (line 226):
`format!("CONNECT \x7b\x7d producer \x7b\x7d", ring, process::id())` — note the
source has no trailing newline here, unlike the consumer request. -/
def connect_producer_request (ring : String) (pid : Nat) : String :=
  "CONNECT " ++ ring ++ " producer " ++ Nat.repr pid

/-- Model of Rust `str::trim`: remove leading and trailing whitespace
characters (restricted to the ASCII whitespace relevant to this protocol). -/
def rust_trim (s : String) : String :=
  String.mk
    (((s.toList.dropWhile Char.isWhitespace).reverse.dropWhile Char.isWhitespace).reverse)

/-- Outcomes of the socket operations inside `ringmaster_request`:
whether `TcpStream::connect`, `write_all` and `flush` succeed, and what
`read_line` yields (`some line` for `Ok`, `none` for `Err`). -/
structure Transport where
  connectOk : Bool
  writeOk : Bool
  flushOk : Bool
  readLine : Option String
deriving DecidableEq

/-- Externally visible actions of the client, used to state which sockets
are opened and which bytes are sent. -/
inductive Action
  | queryPortman (port : Nat)
  | connectRegistrar (port : Nat)
  | send (request : String)
deriving DecidableEq

/-- Embedding of `ringmaster_request` (lines 233-267) together with its
action trace.  Connect failure, write failure, flush failure and read
failure all yield `NoRingMaster`; a reply line whose trim is `OK` returns
the stream (modelled as `Unit`), any other line is `RingMasterFail` with the
entire line as detail. The connect attempt is always recorded; the send is
recorded once the connection is established and `write_all` is invoked. -/
def ringmaster_request_tr (t : Transport) (port : Nat) (request : String) :
    Except Error Unit × List Action :=
  if t.connectOk then
    (if t.writeOk then
       (if t.flushOk then
          (match t.readLine with
           | some line =>
             if rust_trim line = "OK" then Except.ok ()
             else Except.error (Error.RingMasterFail line)
           | none => Except.error Error.NoRingMaster)
        else Except.error Error.NoRingMaster)
     else Except.error Error.NoRingMaster,
     [Action.connectRegistrar port, Action.send request])
  else (Except.error Error.NoRingMaster, [Action.connectRegistrar port])

/-- The result component of `ringmaster_request`. -/
def ringmaster_request (t : Transport) (port : Nat) (request : String) :
    Except Error Unit :=
  (ringmaster_request_tr t port request).1

/-- Environment of one attach call: the port-manager answer, the outcome of
`RingBufferMap::new`, the outcome of `Consumer::attach` (on success the slot
reported by `get_index`), the outcome of `Producer::attach`, the socket
behaviour, and the caller's `process::id()`. -/
structure AttachEnv where
  portman : PortmanOutcome
  mapResult : Except String Unit
  attachSlot : Except ConsumerError Nat
  prodAttach : Except ProducerError Unit
  transport : Transport
  pid : Nat
deriving DecidableEq

/-- Embedding of `attach_consumer` (lines 107-136): resolve the ring-master
port, map the ring file, attach a consumer obtaining its slot, then send the
CONNECT message via `ringmaster_request`.  The overall `none` models the
panic of the `unwrap` inside `ring_name` when the path has no file name.
On success the returned `RingClient` is represented by its consumer slot. -/
def attach_consumer (s : ClientState) (ring_buffer_file : String) (env : AttachEnv) :
    Option (Except Error Nat × List Action) :=
  match get_ringmaster_port s env.portman with
  | Except.error e => some (Except.error e, [Action.queryPortman s.portman_port])
  | Except.ok port =>
    match env.mapResult with
    | Except.error m =>
      some (Except.error (Error.MapError m), [Action.queryPortman s.portman_port])
    | Except.ok _ =>
      match env.attachSlot with
      | Except.error e =>
        some (Except.error (Error.ConsumerError e), [Action.queryPortman s.portman_port])
      | Except.ok slot =>
        match ring_name ring_buffer_file with
        | none => none
        | some rname =>
          let req := connect_consumer_request rname slot env.pid
          let r := ringmaster_request_tr env.transport port req
          some (r.1.map fun _ => slot, Action.queryPortman s.portman_port :: r.2)

/-- Embedding of `attach_producer` (lines 151-175), same pipeline with the
producer attach and the producer CONNECT message. -/
def attach_producer (s : ClientState) (ring_buffer_file : String) (env : AttachEnv) :
    Option (Except Error Unit × List Action) :=
  match get_ringmaster_port s env.portman with
  | Except.error e => some (Except.error e, [Action.queryPortman s.portman_port])
  | Except.ok port =>
    match env.mapResult with
    | Except.error m =>
      some (Except.error (Error.MapError m), [Action.queryPortman s.portman_port])
    | Except.ok _ =>
      match env.prodAttach with
      | Except.error e =>
        some (Except.error (Error.ProducerError e), [Action.queryPortman s.portman_port])
      | Except.ok _ =>
        match ring_name ring_buffer_file with
        | none => none
        | some rname =>
          let req := connect_producer_request rname env.pid
          let r := ringmaster_request_tr env.transport port req
          some (r.1, Action.queryPortman s.portman_port :: r.2)

/-! ## The main program (`main.rs`) -/

/-- The `ProgramArguments` struct of `main.rs`. -/
structure ProgramArguments where
  directory : String
  ring_name : String
  portman : Nat
  comment : String
deriving DecidableEq

/-- Defaults built by `ProgramArguments::new`. -/
def ProgramArguments.new : ProgramArguments :=
  ProgramArguments.mk "/dev/shm" "" 30000 ""

/-- Embedding of `main` up to the attach: the ring path is
`directory/ring_name` (`PathBuf::push` inserts the separator) and
`attach_consumer` is invoked on the module state as `main` leaves it —
`main` never calls `set_portman_port`, so the global still holds its initial
value when `get_ringmaster_port` reads it. -/
def main_run (args : ProgramArguments) (env : AttachEnv) :
    Option (Except Error Nat × List Action) :=
  attach_consumer initialState (args.directory ++ "/" ++ args.ring_name) env

/-- The ports on which the port manager was queried during a trace. -/
def portsQueried (tr : List Action) : List Nat :=
  tr.filterMap fun a =>
    match a with
    | Action.queryPortman p => some p
    | _ => none

/-! ## Helper lemmas about the forwarding loop -/

theorem output_data_append_of_no_break (pre rest : List PollOutcome)
    (h : loop_breaks pre = false) :
    output_data (pre ++ rest) = output_data pre ++ output_data rest := by
  induction pre with
  | nil => rfl
  | cons a pre ih =>
    cases a with
    | ok buf n =>
      simp only [loop_breaks] at h
      simp [output_data, ih h, List.append_assoc]
    | err e =>
      cases e with
      | Timeout =>
        simp only [loop_breaks] at h
        simpa [output_data] using ih h
      | Fatal code => simp [loop_breaks] at h

theorem output_data_timeout_skip (pre rest : List PollOutcome) :
    output_data (pre ++ PollOutcome.err ConsumerError.Timeout :: rest)
      = output_data (pre ++ rest) := by
  induction pre with
  | nil => rfl
  | cons a pre ih =>
    cases a with
    | ok buf n => simp [output_data, ih]
    | err e =>
      cases e with
      | Timeout => simpa [output_data] using ih
      | Fatal code => simp [output_data]

theorem loop_breaks_timeout_skip (pre rest : List PollOutcome) :
    loop_breaks (pre ++ PollOutcome.err ConsumerError.Timeout :: rest)
      = loop_breaks (pre ++ rest) := by
  induction pre with
  | nil => rfl
  | cons a pre ih =>
    cases a with
    | ok buf n => simpa [loop_breaks] using ih
    | err e =>
      cases e with
      | Timeout => simpa [loop_breaks] using ih
      | Fatal code => simp [loop_breaks]

theorem output_data_fatal_stops (pre rest : List PollOutcome) (code : Nat) :
    output_data (pre ++ PollOutcome.err (ConsumerError.Fatal code) :: rest)
      = output_data pre := by
  induction pre with
  | nil => rfl
  | cons a pre ih =>
    cases a with
    | ok buf n => simp [output_data, ih]
    | err e =>
      cases e with
      | Timeout => simpa [output_data] using ih
      | Fatal c => simp [output_data]

theorem loop_breaks_fatal (pre rest : List PollOutcome) (code : Nat) :
    loop_breaks (pre ++ PollOutcome.err (ConsumerError.Fatal code) :: rest) = true := by
  induction pre with
  | nil => rfl
  | cons a pre ih =>
    cases a with
    | ok buf n => simpa [loop_breaks] using ih
    | err e =>
      cases e with
      | Timeout => simpa [loop_breaks] using ih
      | Fatal c => simp [loop_breaks]

/-! ## Claim theorems -/

/-- C1: in any run of the forwarding loop that has not yet hit a fatal error,
a successful poll that returns `n` bytes (`0 ≤ n ≤ 1 MiB`, the size of the
reusable poll buffer) writes exactly the first `n` bytes of the buffer, in
order, to stdout before the output of any later poll; a zero-byte successful
poll writes nothing and the loop immediately polls again. -/
theorem c1_poll_writes_first_n_bytes (pre rest : List PollOutcome)
    (buf : List Nat) (n : Nat)
    (hbuf : buf.length = BUFFER_SIZE) (hn : n ≤ BUFFER_SIZE)
    (hpre : loop_breaks pre = false) :
    output_data (pre ++ PollOutcome.ok buf n :: rest)
      = output_data pre ++ buf.take n ++ output_data rest
    ∧ output_data (pre ++ PollOutcome.ok buf 0 :: rest)
      = output_data pre ++ output_data rest := by
  constructor
  · rw [output_data_append_of_no_break pre _ hpre]
    simp [output_data, List.append_assoc]
  · rw [output_data_append_of_no_break pre _ hpre]
    simp [output_data]

/-- C1 witness: a concrete fatal-free run where a poll of the full-size
buffer returns 2 bytes and where a zero-byte poll emits nothing. -/
theorem c1_witness :
    output_data ([PollOutcome.ok [9] 1]
        ++ PollOutcome.ok (List.replicate BUFFER_SIZE 7) 2 :: [PollOutcome.ok [4] 1])
      = output_data [PollOutcome.ok [9] 1] ++ (List.replicate BUFFER_SIZE 7).take 2
          ++ output_data [PollOutcome.ok [4] 1]
    ∧ output_data ([PollOutcome.ok [9] 1]
        ++ PollOutcome.ok (List.replicate BUFFER_SIZE 7) 0 :: [PollOutcome.ok [4] 1])
      = output_data [PollOutcome.ok [9] 1] ++ output_data [PollOutcome.ok [4] 1] :=
  c1_poll_writes_first_n_bytes [PollOutcome.ok [9] 1] [PollOutcome.ok [4] 1]
    (List.replicate BUFFER_SIZE 7) 2 (by simp) (by norm_num [BUFFER_SIZE]) (by rfl)

/-- C2: a `Timeout` poll result never emits bytes and never terminates the
forwarding loop, while any other ring error terminates it permanently: the
output of the run is exactly the output of the polls before the failure, so
nothing from the failed poll is emitted and everything forwarded earlier
stays forwarded. -/
theorem c2_timeout_tolerated_fatal_terminates (pre rest : List PollOutcome) (code : Nat) :
    output_data (pre ++ PollOutcome.err ConsumerError.Timeout :: rest)
      = output_data (pre ++ rest)
    ∧ loop_breaks (pre ++ PollOutcome.err ConsumerError.Timeout :: rest)
      = loop_breaks (pre ++ rest)
    ∧ output_data (pre ++ PollOutcome.err (ConsumerError.Fatal code) :: rest)
      = output_data pre
    ∧ loop_breaks (pre ++ PollOutcome.err (ConsumerError.Fatal code) :: rest) = true :=
  ⟨output_data_timeout_skip pre rest, loop_breaks_timeout_skip pre rest,
    output_data_fatal_stops pre rest code, loop_breaks_fatal pre rest code⟩

/-- C3: when attaching a consumer succeeds through discovery, mapping and
ring attach, the registration request sent to the ring master is exactly
`CONNECT <ring> consumer.<slot> <pid>` followed by a newline, where the ring
is the file name of the ring-buffer path and the slot is precisely the slot
index the ring-attach step reported for this consumer. -/
theorem c3_consumer_connect_message (s : ClientState) (file rname : String)
    (env : AttachEnv) (slot port : Nat)
    (hport : get_ringmaster_port s env.portman = Except.ok port)
    (hmap : env.mapResult = Except.ok ())
    (hslot : env.attachSlot = Except.ok slot)
    (hname : ring_name file = some rname)
    (hconn : env.transport.connectOk = true) :
    ∃ r tr, attach_consumer s file env = some (r, tr)
      ∧ Action.send ("CONNECT " ++ rname ++ " consumer." ++ Nat.repr slot ++ " "
          ++ Nat.repr env.pid ++ "\n") ∈ tr := by
  simp only [attach_consumer, hport, hmap, hslot, hname]
  refine ⟨_, _, rfl, ?_⟩
  simp [ringmaster_request_tr, hconn, connect_consumer_request]

/-- C3 witness: ring file `/dev/shm/events`, attach slot 3, pid 1234 send
exactly `CONNECT events consumer.3 1234` with a trailing newline. -/
theorem c3_witness :
    ∃ r tr,
      attach_consumer initialState "/dev/shm/events"
          (AttachEnv.mk (PortmanOutcome.ok [40000]) (Except.ok ()) (Except.ok 3)
            (Except.ok ()) (Transport.mk true true true (some "OK\n")) 1234)
        = some (r, tr)
      ∧ Action.send "CONNECT events consumer.3 1234\n" ∈ tr :=
  c3_consumer_connect_message initialState "/dev/shm/events" "events" _ 3 40000
    (by decide) rfl rfl (by decide) rfl

/-- C4: when the connection, write and flush succeed and exactly one reply
line is read, the request exchange succeeds (returning the open connection)
if and only if the reply line with surrounding whitespace trimmed is the
literal `OK`; any other reply line yields `RingMasterFail` carrying that
entire line, and no connection is returned. -/
theorem c4_reply_ok_iff_trimmed_ok (t : Transport) (port : Nat) (req line : String)
    (hc : t.connectOk = true) (hw : t.writeOk = true) (hf : t.flushOk = true)
    (hr : t.readLine = some line) :
    (ringmaster_request t port req = Except.ok () ↔ rust_trim line = "OK")
    ∧ (rust_trim line ≠ "OK" →
        ringmaster_request t port req = Except.error (Error.RingMasterFail line)) := by
  by_cases hok : rust_trim line = "OK" <;>
    simp [ringmaster_request, ringmaster_request_tr, hc, hw, hf, hr, hok]

/-- C4 witness: the reply `OK` with a trailing newline is accepted. -/
theorem c4_witness :
    (ringmaster_request (Transport.mk true true true (some "OK\n")) 40000
        "CONNECT events consumer.3 1234\n" = Except.ok ()
      ↔ rust_trim "OK\n" = "OK")
    ∧ (rust_trim "OK\n" ≠ "OK" →
        ringmaster_request (Transport.mk true true true (some "OK\n")) 40000
          "CONNECT events consumer.3 1234\n"
        = Except.error (Error.RingMasterFail "OK\n")) :=
  c4_reply_ok_iff_trimmed_ok (Transport.mk true true true (some "OK\n")) 40000
    "CONNECT events consumer.3 1234\n" "OK\n" rfl rfl rfl rfl

/-- C5: evaluation of the request builders at the spec's example input.  The
consumer request is newline-terminated, but the producer request built by
`connect_producer` is `CONNECT events producer 1234` with no trailing
newline, contradicting the newline-terminated request grammar. -/
theorem c5_producer_request_lacks_newline :
    connect_producer_request "events" 1234 = "CONNECT events producer 1234"
    ∧ (connect_producer_request "events" 1234).toList.getLast? ≠ some '\n'
    ∧ connect_consumer_request "events" 3 1234 = "CONNECT events consumer.3 1234\n" :=
  ⟨by decide, by decide, by decide⟩

/-- C6 counterexample: a connect failure and a write failure after a
successful connect produce the very same error value `NoRingMaster`; the
code has no separate `RegistrarUnreachable` / `TransportError` kinds, so the
two situations are not distinguishable in the returned error. -/
theorem c6_counterexample :
    ringmaster_request (Transport.mk false true true (some "OK\n")) 40000
        "CONNECT events consumer.3 1234\n"
      = Except.error Error.NoRingMaster
    ∧ ringmaster_request (Transport.mk true false true (some "OK\n")) 40000
        "CONNECT events consumer.3 1234\n"
      = Except.error Error.NoRingMaster :=
  ⟨by decide, by decide⟩

/-- C6 amended: every transport-level failure of the exchange — connect
failure, and write, flush or read failure after connecting — yields one and
the same error kind, `NoRingMaster`. -/
theorem c6_all_transport_failures_noringmaster (t : Transport) (port : Nat)
    (req : String)
    (h : t.connectOk = false ∨ t.writeOk = false ∨ t.flushOk = false
      ∨ t.readLine = none) :
    ringmaster_request t port req = Except.error Error.NoRingMaster := by
  obtain ⟨c, w, f, rl⟩ := t
  dsimp only at h
  cases c <;> cases w <;> cases f <;>
    simp_all [ringmaster_request, ringmaster_request_tr]

/-- C6 witness: the amended statement at a concrete read failure after a
successful connect, write and flush. -/
theorem c6_witness :
    ringmaster_request (Transport.mk true true true none) 40000
        "CONNECT events consumer.3 1234\n"
      = Except.error Error.NoRingMaster :=
  c6_all_transport_failures_noringmaster (Transport.mk true true true none) 40000
    "CONNECT events consumer.3 1234\n" (Or.inr (Or.inr (Or.inr rfl)))

/-- C7: evaluation of the main pipeline at the failing configuration.  With
`--port 12345` parsed into the arguments, the discovery service is still
queried on the default 30000: `main` never calls `set_portman_port` (which
would have installed 12345), so the configured value is ignored. -/
theorem c7_configured_port_ignored :
    (main_run (ProgramArguments.mk "/dev/shm" "events" 12345 "")
        (AttachEnv.mk (PortmanOutcome.ok [40000]) (Except.ok ()) (Except.ok 3)
          (Except.ok ()) (Transport.mk true true true (some "OK\n")) 1234)).map
        (fun r => portsQueried r.2)
      = some [30000]
    ∧ (30000 : Nat) ≠ 12345
    ∧ (set_portman_port 12345).portman_port = 12345 :=
  ⟨by decide, by decide, by decide⟩

/-- C8: when discovery succeeds but returns an empty endpoint list for the
ring master, `attach_consumer` fails with `NoRingMaster` and its trace shows
that no connection to any registrar was attempted. -/
theorem c8_empty_discovery_no_registrar_connect (s : ClientState) (file : String)
    (env : AttachEnv) (h : env.portman = PortmanOutcome.ok []) :
    ∃ tr, attach_consumer s file env = some (Except.error Error.NoRingMaster, tr)
      ∧ ∀ p, Action.connectRegistrar p ∉ tr := by
  refine ⟨[Action.queryPortman s.portman_port], ?_, ?_⟩
  · simp [attach_consumer, get_ringmaster_port, h]
  · intro p
    simp

/-- C8 witness: the empty discovery answer at the default configuration. -/
theorem c8_witness :
    ∃ tr,
      attach_consumer initialState "/dev/shm/events"
          (AttachEnv.mk (PortmanOutcome.ok []) (Except.ok ()) (Except.ok 3)
            (Except.ok ()) (Transport.mk true true true (some "OK\n")) 1234)
        = some (Except.error Error.NoRingMaster, tr)
      ∧ ∀ p, Action.connectRegistrar p ∉ tr :=
  c8_empty_discovery_no_registrar_connect initialState "/dev/shm/events" _ rfl

/-- C9 counterexample: when the discovery service cannot be reached — the
port-manager call fails with an underlying error (code 7) — the result is
`PortManError 7` (the DiscoveryError kind), not `NoRingMaster`, contrary to
the claim that an unreachable discovery service yields NoRegistrar. -/
theorem c9_counterexample :
    get_ringmaster_port initialState (PortmanOutcome.err 7)
      = Except.error (Error.PortManError 7)
    ∧ Except.error (Error.PortManError 7)
      ≠ (Except.error Error.NoRingMaster : Except Error Nat) :=
  ⟨by decide, by decide⟩

/-- C9 amended: resolving the ring-master endpoint fails with `NoRingMaster`
exactly when discovery succeeds but returns no matches; when the discovery
service cannot be reached or its query fails, the result is `PortManError`
wrapping the underlying failure; otherwise the first advertised port wins. -/
theorem c9_discovery_error_classification (s : ClientState) (o : PortmanOutcome) :
    (∀ e, o = PortmanOutcome.err e →
        get_ringmaster_port s o = Except.error (Error.PortManError e))
    ∧ (o = PortmanOutcome.ok [] →
        get_ringmaster_port s o = Except.error Error.NoRingMaster)
    ∧ (∀ p ps, o = PortmanOutcome.ok (p :: ps) →
        get_ringmaster_port s o = Except.ok p) := by
  refine ⟨?_, ?_, ?_⟩
  · rintro e rfl
    rfl
  · rintro rfl
    rfl
  · rintro p ps rfl
    simp [get_ringmaster_port]

/-- C9 witness: the amended classification at a singleton discovery answer. -/
theorem c9_witness :
    get_ringmaster_port initialState (PortmanOutcome.ok [40000]) = Except.ok 40000 :=
  (c9_discovery_error_classification initialState (PortmanOutcome.ok [40000])).2.2
    40000 [] rfl

/-! ## Helper lemmas about `fileName` -/

theorem toList_ne_of_ne (a b : String) (h : a ≠ b) : a.toList ≠ b.toList :=
  fun hl => h (String.ext hl)

theorem fileName_leaf (nameL : List Char)
    (h1 : nameL ≠ []) (h2 : nameL ≠ ['.']) (h3 : nameL ≠ ['.', '.'])
    (h4 : '/' ∉ nameL) :
    fileName nameL = some nameL := by
  have hreal : isRealComponent nameL = true := by
    simp [isRealComponent, h1, h2]
  rw [fileName, splitSlash_no_slash nameL h4]
  simp [List.filter, hreal, h3]

theorem fileName_append_leaf (dirL nameL : List Char)
    (h1 : nameL ≠ []) (h2 : nameL ≠ ['.']) (h3 : nameL ≠ ['.', '.'])
    (h4 : '/' ∉ nameL) :
    fileName (dirL ++ '/' :: nameL) = some nameL := by
  have hreal : isRealComponent nameL = true := by
    simp [isRealComponent, h1, h2]
  have hfilter : List.filter isRealComponent [nameL] = [nameL] := by
    simp [List.filter, hreal]
  rw [fileName, splitSlash_append, splitSlash_no_slash nameL h4,
    List.filter_append, hfilter, List.getLast?_concat]
  simp [h3]

/-- C10: deriving the ring name from the ring-buffer path is partial.  For a
path `dir/name` whose final component `name` is a genuine file name, and for
a bare file name, `ring_name` returns exactly that component with the
directory stripped; but on a path with no file-name component (`..` or the
empty path) `ring_name` — and with it `attach_consumer` / `attach_producer`
once the earlier stages succeed — panics via `unwrap` (modelled as `none`)
instead of returning an error result. -/
theorem c10_ring_name_partial (dir name : String)
    (h1 : name ≠ "") (h2 : name ≠ ".") (h3 : name ≠ "..")
    (h4 : '/' ∉ name.toList) :
    ring_name (dir ++ "/" ++ name) = some name
    ∧ ring_name name = some name
    ∧ ring_name ".." = none
    ∧ ring_name "" = none
    ∧ attach_consumer initialState ".."
        (AttachEnv.mk (PortmanOutcome.ok [40000]) (Except.ok ()) (Except.ok 3)
          (Except.ok ()) (Transport.mk true true true (some "OK\n")) 1234) = none
    ∧ attach_producer initialState ".."
        (AttachEnv.mk (PortmanOutcome.ok [40000]) (Except.ok ()) (Except.ok 3)
          (Except.ok ()) (Transport.mk true true true (some "OK\n")) 1234) = none := by
  have h1' : name.toList ≠ [] := toList_ne_of_ne name "" h1
  have h2' : name.toList ≠ ['.'] := toList_ne_of_ne name "." h2
  have h3' : name.toList ≠ ['.', '.'] := toList_ne_of_ne name ".." h3
  have hd : (dir ++ "/" ++ name).toList = dir.toList ++ '/' :: name.toList := by
    simp [String.toList, String.data_append]
  refine ⟨?_, ?_, by decide, by decide, by decide, by decide⟩
  · rw [ring_name, hd, fileName_append_leaf dir.toList name.toList h1' h2' h3' h4]
    rfl
  · rw [ring_name, fileName_leaf name.toList h1' h2' h3' h4]
    rfl

/-- C10 witness: the directory `/dev/shm` is stripped from `/dev/shm/events`,
the bare name `events` maps to itself, and `..`, the empty path, and the
attaches on `..` all panic (modelled as `none`). -/
theorem c10_witness :
    ring_name ("/dev/shm" ++ "/" ++ "events") = some "events"
    ∧ ring_name "events" = some "events"
    ∧ ring_name ".." = none
    ∧ ring_name "" = none
    ∧ attach_consumer initialState ".."
        (AttachEnv.mk (PortmanOutcome.ok [40000]) (Except.ok ()) (Except.ok 3)
          (Except.ok ()) (Transport.mk true true true (some "OK\n")) 1234) = none
    ∧ attach_producer initialState ".."
        (AttachEnv.mk (PortmanOutcome.ok [40000]) (Except.ok ()) (Except.ok 3)
          (Except.ok ()) (Transport.mk true true true (some "OK\n")) 1234) = none :=
  c10_ring_name_partial "/dev/shm" "events" (by decide) (by decide) (by decide)
    (by decide)

end RingToStdout
